import Mathlib

/-!
Verification development for the Quant Engine Pro backend (`terryquant.py`).

The Python source is shallowly embedded here:

* Python floats become exact rationals (`ℚ`); every float literal in the
  source (`0.30`, `1.2`, …) is exactly representable, so the arithmetic
  structure of the code is preserved.
* Python `int(x)` (truncation toward zero) is `py_int`.
* Python `round(x, 2)` (round half to even at two decimals) is `round2`.
* A pandas `DataFrame` of candles is `Df`, a record of per-column lists;
  `iloc[-1]` / `iloc[-2]` become `List.getLastD 0` / `(·.dropLast).getLastD 0`
  (the source only evaluates these on frames with ≥ 2 rows).
* The TA-Lib indicator functions are an external collaborator; they are
  abstracted as a record `TALib` of opaque numeric functions (each field
  stands for "the last element of the array the library returns").
* Fallible operations (a Python `raise`, e.g. a `KeyError` on a dict access)
  are embedded as `Option`, with `none` standing for the raised exception.
* Free-text fields (`description`, `reason`, label formatting with float
  interpolation) and timestamps carry no logic and are omitted from the
  embedded records; every numeric and control-flow decision of the source is
  kept.
-/

/-! ### Python numeric primitives -/

/-- Python `int(x)`: truncation toward zero. -/
def py_int (q : ℚ) : ℤ :=
  if q < 0 then Int.ceil q else Int.floor q

/-- Round to the nearest integer, ties to even — the rounding used by Python's
built-in `round`. -/
def round_half_even (q : ℚ) : ℤ :=
  if Int.fract q < 1/2 then Int.floor q
  else if 1/2 < Int.fract q then Int.floor q + 1
  else if Int.floor q % 2 = 0 then Int.floor q else Int.floor q + 1

/-- Python `round(x, 2)`: round to two decimal places, ties to even. -/
def round2 (q : ℚ) : ℚ :=
  (round_half_even (q * 100) : ℚ) / 100

/-! ### Data classes (`OHLCV`, `TechnicalIndicators`, `Signal`, `Factor`,
`RiskProfile`, `EntryPoint`) and the candle frame -/

/-- One candle, dataclass `OHLCV` of the source (timestamp as an integer). -/
structure OHLCV where
  timestamp : ℤ
  open_ : ℚ
  high : ℚ
  low : ℚ
  close : ℚ
  volume : ℚ
deriving DecidableEq, Inhabited

/-- A pandas `DataFrame` of candles, as its per-column lists (row `i` is the
`i`-th entry of each list; all columns have the row count of the frame). -/
structure Df where
  open_ : List ℚ
  high : List ℚ
  low : List ℚ
  close : List ℚ
  volume : List ℚ
deriving DecidableEq, Inhabited

/-- Dataclass `TechnicalIndicators` of the source. -/
structure TechnicalIndicators where
  ema_20 : ℚ
  ema_50 : ℚ
  rsi : ℚ
  macd : ℚ
  macd_signal : ℚ
  bb_upper : ℚ
  bb_middle : ℚ
  bb_lower : ℚ
  atr : ℚ
  adx : ℚ
  volume_sma : ℚ
  vwap : ℚ
deriving DecidableEq, Inhabited

/-- Enum `SignalType` of the source. -/
inductive SignalType where
  | strong_buy
  | buy
  | neutral
  | sell
  | strong_sell
deriving DecidableEq, Inhabited

/-- The `.value` string of each `SignalType` member. -/
def SignalType.value : SignalType → String
  | .strong_buy => "strong_buy"
  | .buy => "buy"
  | .neutral => "neutral"
  | .sell => "sell"
  | .strong_sell => "strong_sell"

/-- The `.name.replace("_", " ")` label used for `Signal.label`. -/
def SignalType.label : SignalType → String
  | .strong_buy => "STRONG BUY"
  | .buy => "BUY"
  | .neutral => "NEUTRAL"
  | .sell => "SELL"
  | .strong_sell => "STRONG SELL"

/-- Enum `MarketRegime` of the source. -/
inductive MarketRegime where
  | trending_up
  | trending_down
  | ranging
  | breakout
  | reversal
deriving DecidableEq, Inhabited

/-- The `.value` string of each `MarketRegime` member. -/
def MarketRegime.value : MarketRegime → String
  | .trending_up => "trending_up"
  | .trending_down => "trending_down"
  | .ranging => "ranging"
  | .breakout => "breakout"
  | .reversal => "reversal"

/-- Dataclass `Signal` (timestamp omitted). -/
structure Signal where
  type : String
  score : ℤ
  confidence : ℤ
  label : String
deriving DecidableEq, Inhabited

/-- Dataclass `Factor` (free-text `description` omitted). -/
structure Factor where
  name : String
  impact : ℤ
  direction : String
deriving DecidableEq, Inhabited

/-- Dataclass `RiskProfile`. -/
structure RiskProfile where
  volatility_state : String
  atr_percent : ℚ
  recommended_position_size : ℚ
  stop_loss_distance : ℚ
deriving DecidableEq, Inhabited

/-- Dataclass `EntryPoint` (free-text `reason` omitted; `risk_reward` is the
source's risk/reward-ratio field). -/
structure EntryPoint where
  price : ℚ
  type : String
  risk_reward : ℚ
  strength : ℤ
  order_type : String
  win_rate : ℤ
  tp_price : ℚ
  sl_price : ℚ
deriving DecidableEq, Inhabited

/-! ### `SignalEngine` — the five factor dimensions

Each `*_score` definition embeds one numbered block of
`SignalEngine.analyze`; the `+=` updates of the source are folded into the
branch results. -/

/-- Weight table set in `SignalEngine.__init__` (key `trend`). -/
def weight_trend : ℚ := 0.30

/-- Weight table entry for `momentum`. -/
def weight_momentum : ℚ := 0.25

/-- Weight table entry for `volatility`. -/
def weight_volatility : ℚ := 0.15

/-- Weight table entry for `volume`. -/
def weight_volume : ℚ := 0.15

/-- Weight table entry for `structure`. -/
def weight_structure : ℚ := 0.15

/-- Block 1 of `SignalEngine.analyze`: trend.  The first guard embeds the
source's chained comparison `ema_20 > ema_50 > ema_50`, which is
`(ema_20 > ema_50) and (ema_50 > ema_50)` in Python. -/
def trend_score (ind : TechnicalIndicators) (close : ℚ) : ℤ :=
  if ind.ema_20 > ind.ema_50 ∧ ind.ema_50 > ind.ema_50 then
    (if ind.adx > 30 then 60 else 40)
  else if ind.ema_20 < ind.ema_50 then
    (if ind.adx > 30 then -60 else -40)
  else if ind.adx > 25 then
    (if close > ind.ema_50 then 20 else -20)
  else
    (if close > ind.ema_50 then 10 else -10)

/-- Block 2 of `SignalEngine.analyze`: momentum (RSI bucket plus MACD
confirmation). -/
def momentum_score (ind : TechnicalIndicators) : ℤ :=
  (if ind.rsi > 70 then -20
   else if ind.rsi > 60 then 15
   else if ind.rsi > 50 then 25
   else if ind.rsi > 40 then -15
   else if ind.rsi < 30 then 20
   else -25)
  + (if ind.macd > ind.macd_signal then 20 else -20)

/-- Block 3 of `SignalEngine.analyze`: volatility (Bollinger-band position;
`atr_pct` of the source only feeds the description and is omitted). -/
def volatility_score (ind : TechnicalIndicators) (close : ℚ) : ℤ :=
  let bb_range := ind.bb_upper - ind.bb_lower
  let bb_position : ℚ := if bb_range > 0 then (close - ind.bb_lower) / bb_range else 0.5
  if bb_position > 0.85 then -25
  else if bb_position > 0.7 then -10
  else if bb_position < 0.15 then 25
  else if bb_position < 0.3 then 10
  else 5

/-- Block 4 of `SignalEngine.analyze`: volume (`price_direction_strength` of
the source only feeds the description and is omitted). -/
def volume_score (ind : TechnicalIndicators) (close prev_close current_volume : ℚ) : ℤ :=
  let volume_ratio := if ind.volume_sma > 0 then current_volume / ind.volume_sma else 1
  if volume_ratio > 1.8 then (if close > prev_close then 30 else -30)
  else if volume_ratio > 1.5 then (if close > prev_close then 20 else -20)
  else if volume_ratio > 1.1 then (if close > prev_close then 10 else -10)
  else -5

/-- Block 5 of `SignalEngine.analyze`: market structure (`price_to_vwap` of
the source only feeds the description and is omitted). -/
def structure_score (ind : TechnicalIndicators) (close : ℚ) : ℤ :=
  if close > ind.vwap ∧ close > ind.bb_middle then 30
  else if close > ind.vwap then 15
  else if close < ind.vwap ∧ close < ind.bb_middle then -30
  else -15

/-- The factor list appended during `SignalEngine.analyze` (five factors, in
source order). -/
def build_factors (ind : TechnicalIndicators) (close prev_close current_volume : ℚ) :
    List Factor :=
  [{ name := "Trend Strength", impact := trend_score ind close,
     direction := if trend_score ind close > 0 then "bullish" else "bearish" },
   { name := "Momentum", impact := momentum_score ind,
     direction := if momentum_score ind > 0 then "bullish" else "bearish" },
   { name := "Volatility Position", impact := volatility_score ind close,
     direction := if volatility_score ind close > 0 then "bullish" else "bearish" },
   { name := "Volume Confirmation", impact := volume_score ind close prev_close current_volume,
     direction := if volume_score ind close prev_close current_volume > 0 then "bullish" else "bearish" },
   { name := "Market Structure", impact := structure_score ind close,
     direction := if structure_score ind close > 0 then "bullish" else "bearish" }]

/-- `final_score` of `SignalEngine.analyze`:
`sum(scores[k] * self.weights[k])` in dict insertion order, then
`max(-100, min(100, int(final_score)))`. -/
def final_score_of (ind : TechnicalIndicators) (close prev_close current_volume : ℚ) : ℤ :=
  max (-100) (min 100 (py_int
    ((trend_score ind close : ℚ) * weight_trend
      + (momentum_score ind : ℚ) * weight_momentum
      + (volatility_score ind close : ℚ) * weight_volatility
      + (volume_score ind close prev_close current_volume : ℚ) * weight_volume
      + (structure_score ind close : ℚ) * weight_structure)))

/-- The `if final_score > 65 … else STRONG_SELL` chain of
`SignalEngine.analyze`. -/
def signal_type_of (final_score : ℤ) : SignalType :=
  if final_score > 65 then .strong_buy
  else if final_score > 25 then .buy
  else if final_score > -25 then .neutral
  else if final_score > -65 then .sell
  else .strong_sell

/-- The confidence computation of `SignalEngine.analyze`: factor-sign
agreement, then the strong-signal boost. -/
def confidence_of (final_score : ℤ) (factors : List Factor) : ℤ :=
  let bullish_factors := factors.countP (fun f => decide (f.impact > 0))
  let bearish_factors := factors.countP (fun f => decide (f.impact < 0))
  let agreement : ℚ := ((max bullish_factors bearish_factors : ℕ) : ℚ) / (factors.length : ℚ)
  let base_confidence : ℤ := py_int (50 + agreement * 50)
  if |final_score| > 60 then min 100 (base_confidence + 15) else base_confidence

/-- `SignalEngine._detect_regime` (its `scores` argument is only read at key
`trend`, passed here as `trend_sc`).  `fallthrough` is the code after the
first `if/elif` statement, reached whenever no `return` fired inside it. -/
def detect_regime (ind : TechnicalIndicators) (trend_sc : ℤ) : String :=
  let fallthrough :=
    if ind.adx < 20 then MarketRegime.ranging.value
    else if |ind.rsi - 50| > 35 then MarketRegime.reversal.value
    else MarketRegime.breakout.value
  if ind.adx > 35 then
    (if trend_sc > 30 then MarketRegime.trending_up.value
     else if trend_sc < -30 then MarketRegime.trending_down.value
     else fallthrough)
  else if ind.adx > 25 then
    (if |trend_sc| > 20 then MarketRegime.breakout.value else fallthrough)
  else fallthrough

/-- `SignalEngine.analyze` (the frame is read only at
`close.iloc[-1]`, `close.iloc[-2]` and `volume.iloc[-1]`).  Returns
`(signal, factors, regime)`. -/
def analyze (df : Df) (indicators : TechnicalIndicators) :
    Signal × List Factor × String :=
  let close := df.close.getLastD 0
  let prev_close := df.close.dropLast.getLastD 0
  let current_volume := df.volume.getLastD 0
  let factors := build_factors indicators close prev_close current_volume
  let final_score := final_score_of indicators close prev_close current_volume
  let signal_type := signal_type_of final_score
  let confidence := confidence_of final_score factors
  let signal : Signal :=
    { type := signal_type.value, score := final_score,
      confidence := confidence, label := signal_type.label }
  let regime := detect_regime indicators (trend_score indicators close)
  (signal, factors, regime)

/-! ### `RiskManager` -/

/-- `RiskManager.calculate_risk`.  The source sets `vol_state` and the base
`position_size` in the same `if/elif` chain; they are split into two parallel
chains over the same conditions here. -/
def calculate_risk (df : Df) (ind : TechnicalIndicators) (signal : Signal) : RiskProfile :=
  let close := df.close.getLastD 0
  let atr_percent := ind.atr / close * 100
  let vol_state :=
    if atr_percent < 1.0 then "low"
    else if atr_percent < 2.5 then "normal"
    else if atr_percent < 4.0 then "high"
    else "extreme"
  let position_size : ℚ :=
    if atr_percent < 1.0 then 1.0
    else if atr_percent < 2.5 then 0.8
    else if atr_percent < 4.0 then 0.5
    else 0.25
  let position_size := position_size * ((signal.confidence : ℚ) / 100)
  let position_size := if signal.confidence < 60 then position_size * 0.5 else position_size
  let stop_distance := ind.atr * 2
  { volatility_state := vol_state,
    atr_percent := atr_percent,
    recommended_position_size := round2 position_size,
    stop_loss_distance := round2 stop_distance }

/-! ### `EntryPointFinder` -/

/-- `df['volume'].tail(20)`: the last 20 rows (all rows when fewer). -/
def tail20 (l : List ℚ) : List ℚ := l.drop (l.length - 20)

/-- `EntryPointFinder._calculate_win_rate`.  The frame argument is read only
at `len(df)`, `df['volume'].iloc[-1]` and `df['volume'].tail(20).mean()`; the
row count is taken on the volume column, the only column this method uses. -/
def calculate_win_rate (entry_type : String) (entry_price tp_price sl_price : ℚ)
    (indicators : TechnicalIndicators) (df : Df) (signal : Signal) : ℤ :=
  let base_rate : ℚ := 50
  -- Factor 1: signal confidence
  let base_rate := base_rate + ((signal.confidence : ℚ) - 50) * 0.15
  -- Factor 2: risk/reward ratio
  let risk := if entry_type = "BUY" then entry_price - sl_price else sl_price - entry_price
  let reward := if entry_type = "BUY" then tp_price - entry_price else entry_price - tp_price
  let base_rate :=
    if risk > 0 then
      let rrr := reward / risk
      if rrr > 2.5 then base_rate + 12
      else if rrr > 2.0 then base_rate + 10
      else if rrr > 1.5 then base_rate + 8
      else if rrr > 1.0 then base_rate + 5
      else base_rate
    else base_rate
  -- Factor 3: market regime
  let base_rate :=
    if indicators.adx > 30 then base_rate + 8
    else if indicators.adx < 20 then base_rate - 5
    else base_rate
  -- Factor 4: volume confirmation
  let base_rate :=
    if df.volume.length > 0 then
      let current_vol := df.volume.getLastD 0
      let avg_vol := (tail20 df.volume).sum / ((tail20 df.volume).length : ℚ)
      if current_vol > avg_vol * 1.5 then base_rate + 8 else base_rate
    else base_rate
  -- Factor 5: entry type quality
  let base_rate :=
    if entry_type = "primary" then base_rate + 5
    else if entry_type = "aggressive" then base_rate - 3
    else base_rate
  -- Factor 6: pattern strength
  let base_rate :=
    if indicators.rsi < 30 ∨ indicators.rsi > 70 then base_rate + 10
    else if indicators.rsi < 40 ∨ indicators.rsi > 60 then base_rate + 5
    else base_rate
  py_int (min 95 (max 20 base_rate))

/-- `EntryPointFinder._find_buy_entries` (four anchors, in source order). -/
def find_buy_entries (close current_price : ℚ) (indicators : TechnicalIndicators)
    (df : Df) (signal : Signal) : List EntryPoint :=
  let atr := indicators.atr
  -- ENTRY 1: lower Bollinger band
  let entry_1_price := round2 indicators.bb_lower
  let entry_1_tp := round2 (entry_1_price + atr * 3)
  let entry_1_sl := round2 (entry_1_price - atr * 1.2)
  let entry_1_gain := (entry_1_tp - entry_1_price) / entry_1_price * 100
  let entry_1_risk := (entry_1_price - entry_1_sl) / entry_1_price * 100
  let entry_1_rrr := if entry_1_risk > 0 then entry_1_gain / entry_1_risk else 0
  let entry_1_win_rate :=
    calculate_win_rate "aggressive" entry_1_price entry_1_tp entry_1_sl indicators df signal
  let entry_1_strength : ℤ := if signal.confidence > 75 then 90 else 80
  let entry_1_strength :=
    if |entry_1_price - indicators.vwap| < atr then min 98 (entry_1_strength + 5)
    else entry_1_strength
  let entry_1 : EntryPoint :=
    { price := entry_1_price, type := "aggressive", risk_reward := round2 entry_1_rrr,
      strength := entry_1_strength, order_type := "BUY", win_rate := entry_1_win_rate,
      tp_price := entry_1_tp, sl_price := entry_1_sl }
  -- ENTRY 2: EMA-20
  let entry_2_price := round2 indicators.ema_20
  let entry_2_tp := round2 (entry_2_price + atr * 2.8)
  let entry_2_sl := round2 (entry_2_price - atr * 1.0)
  let entry_2_gain := (entry_2_tp - entry_2_price) / entry_2_price * 100
  let entry_2_risk := (entry_2_price - entry_2_sl) / entry_2_price * 100
  let entry_2_rrr := if entry_2_risk > 0 then entry_2_gain / entry_2_risk else 0
  let entry_2_win_rate :=
    calculate_win_rate "secondary" entry_2_price entry_2_tp entry_2_sl indicators df signal
  let entry_2_strength : ℤ := if signal.confidence > 75 then 85 else 70
  let entry_2 : EntryPoint :=
    { price := entry_2_price, type := "secondary", risk_reward := round2 entry_2_rrr,
      strength := entry_2_strength, order_type := "BUY", win_rate := entry_2_win_rate,
      tp_price := entry_2_tp, sl_price := entry_2_sl }
  -- ENTRY 3: VWAP
  let entry_3_price := round2 indicators.vwap
  let entry_3_tp := round2 (entry_3_price + atr * 3.0)
  let entry_3_sl := round2 (entry_3_price - atr * 1.1)
  let entry_3_gain := (entry_3_tp - entry_3_price) / entry_3_price * 100
  let entry_3_risk := (entry_3_price - entry_3_sl) / entry_3_price * 100
  let entry_3_rrr := if entry_3_risk > 0 then entry_3_gain / entry_3_risk else 0
  let entry_3_win_rate :=
    calculate_win_rate "primary" entry_3_price entry_3_tp entry_3_sl indicators df signal
  let entry_3_strength : ℤ := if signal.confidence > 70 then 88 else 75
  let entry_3_strength :=
    if |entry_3_price - indicators.bb_middle| < atr * 0.5 then min 98 (entry_3_strength + 3)
    else entry_3_strength
  let entry_3 : EntryPoint :=
    { price := entry_3_price, type := "primary", risk_reward := round2 entry_3_rrr,
      strength := entry_3_strength, order_type := "BUY", win_rate := entry_3_win_rate,
      tp_price := entry_3_tp, sl_price := entry_3_sl }
  -- ENTRY 4: conservative dip entry
  let entry_4_price := round2 (current_price - atr * 0.6)
  let entry_4_tp := round2 (entry_4_price + atr * 2.5)
  let entry_4_sl := round2 (entry_4_price - atr * 0.8)
  let entry_4_gain := (entry_4_tp - entry_4_price) / entry_4_price * 100
  let entry_4_risk := (entry_4_price - entry_4_sl) / entry_4_price * 100
  let entry_4_rrr := if entry_4_risk > 0 then entry_4_gain / entry_4_risk else 0
  let entry_4_win_rate :=
    calculate_win_rate "primary" entry_4_price entry_4_tp entry_4_sl indicators df signal
  let entry_4_strength : ℤ := if signal.confidence > 65 then 75 else 60
  let entry_4 : EntryPoint :=
    { price := entry_4_price, type := "primary", risk_reward := round2 entry_4_rrr,
      strength := entry_4_strength, order_type := "BUY", win_rate := entry_4_win_rate,
      tp_price := entry_4_tp, sl_price := entry_4_sl }
  [entry_1, entry_2, entry_3, entry_4]

/-- `EntryPointFinder._find_sell_entries` (four anchors, in source order). -/
def find_sell_entries (close current_price : ℚ) (indicators : TechnicalIndicators)
    (df : Df) (signal : Signal) : List EntryPoint :=
  let atr := indicators.atr
  -- ENTRY 1: upper Bollinger band
  let entry_1_price := round2 indicators.bb_upper
  let entry_1_tp := round2 (entry_1_price - atr * 3)
  let entry_1_sl := round2 (entry_1_price + atr * 1.2)
  let entry_1_gain := (entry_1_price - entry_1_tp) / entry_1_price * 100
  let entry_1_risk := (entry_1_sl - entry_1_price) / entry_1_price * 100
  let entry_1_rrr := if entry_1_risk > 0 then entry_1_gain / entry_1_risk else 0
  let entry_1_win_rate :=
    calculate_win_rate "aggressive" entry_1_price entry_1_tp entry_1_sl indicators df signal
  let entry_1_strength : ℤ := if signal.confidence > 75 then 90 else 80
  let entry_1_strength :=
    if |entry_1_price - indicators.vwap| < atr then min 98 (entry_1_strength + 5)
    else entry_1_strength
  let entry_1 : EntryPoint :=
    { price := entry_1_price, type := "aggressive", risk_reward := round2 entry_1_rrr,
      strength := entry_1_strength, order_type := "SELL", win_rate := entry_1_win_rate,
      tp_price := entry_1_tp, sl_price := entry_1_sl }
  -- ENTRY 2: EMA-20
  let entry_2_price := round2 indicators.ema_20
  let entry_2_tp := round2 (entry_2_price - atr * 2.8)
  let entry_2_sl := round2 (entry_2_price + atr * 1.0)
  let entry_2_gain := (entry_2_price - entry_2_tp) / entry_2_price * 100
  let entry_2_risk := (entry_2_sl - entry_2_price) / entry_2_price * 100
  let entry_2_rrr := if entry_2_risk > 0 then entry_2_gain / entry_2_risk else 0
  let entry_2_win_rate :=
    calculate_win_rate "secondary" entry_2_price entry_2_tp entry_2_sl indicators df signal
  let entry_2_strength : ℤ := if signal.confidence > 75 then 85 else 70
  let entry_2 : EntryPoint :=
    { price := entry_2_price, type := "secondary", risk_reward := round2 entry_2_rrr,
      strength := entry_2_strength, order_type := "SELL", win_rate := entry_2_win_rate,
      tp_price := entry_2_tp, sl_price := entry_2_sl }
  -- ENTRY 3: VWAP
  let entry_3_price := round2 indicators.vwap
  let entry_3_tp := round2 (entry_3_price - atr * 3.0)
  let entry_3_sl := round2 (entry_3_price + atr * 1.1)
  let entry_3_gain := (entry_3_price - entry_3_tp) / entry_3_price * 100
  let entry_3_risk := (entry_3_sl - entry_3_price) / entry_3_price * 100
  let entry_3_rrr := if entry_3_risk > 0 then entry_3_gain / entry_3_risk else 0
  let entry_3_win_rate :=
    calculate_win_rate "primary" entry_3_price entry_3_tp entry_3_sl indicators df signal
  let entry_3_strength : ℤ := if signal.confidence > 70 then 88 else 75
  let entry_3_strength :=
    if |entry_3_price - indicators.bb_middle| < atr * 0.5 then min 98 (entry_3_strength + 3)
    else entry_3_strength
  let entry_3 : EntryPoint :=
    { price := entry_3_price, type := "primary", risk_reward := round2 entry_3_rrr,
      strength := entry_3_strength, order_type := "SELL", win_rate := entry_3_win_rate,
      tp_price := entry_3_tp, sl_price := entry_3_sl }
  -- ENTRY 4: conservative rally entry
  let entry_4_price := round2 (current_price + atr * 0.6)
  let entry_4_tp := round2 (entry_4_price - atr * 2.5)
  let entry_4_sl := round2 (entry_4_price + atr * 0.8)
  let entry_4_gain := (entry_4_price - entry_4_tp) / entry_4_price * 100
  let entry_4_risk := (entry_4_sl - entry_4_price) / entry_4_price * 100
  let entry_4_rrr := if entry_4_risk > 0 then entry_4_gain / entry_4_risk else 0
  let entry_4_win_rate :=
    calculate_win_rate "primary" entry_4_price entry_4_tp entry_4_sl indicators df signal
  let entry_4_strength : ℤ := if signal.confidence > 65 then 75 else 60
  let entry_4 : EntryPoint :=
    { price := entry_4_price, type := "primary", risk_reward := round2 entry_4_rrr,
      strength := entry_4_strength, order_type := "SELL", win_rate := entry_4_win_rate,
      tp_price := entry_4_tp, sl_price := entry_4_sl }
  [entry_1, entry_2, entry_3, entry_4]

/-- The Python sort key `lambda x: (x.win_rate, x.strength)`. -/
def entry_key (ep : EntryPoint) : ℤ × ℤ := (ep.win_rate, ep.strength)

/-- Strict lexicographic order on sort keys (Python tuple `<`). -/
def key_lt (a b : ℤ × ℤ) : Prop := a.1 < b.1 ∨ (a.1 = b.1 ∧ a.2 < b.2)

instance (a b : ℤ × ℤ) : Decidable (key_lt a b) :=
  inferInstanceAs (Decidable (_ ∨ _))

/-- One step of stable descending insertion: `a` is placed before the first
element whose key is strictly below `a`'s. -/
def insort (a : EntryPoint) : List EntryPoint → List EntryPoint
  | [] => [a]
  | b :: t => if key_lt (entry_key b) (entry_key a) then a :: b :: t else b :: insort a t

/-- `entries.sort(key=lambda x: (x.win_rate, x.strength), reverse=True)`:
Python's stable sort, descending by `(win_rate, strength)`. -/
def sort_entries (l : List EntryPoint) : List EntryPoint :=
  l.foldl (fun acc x => insort x acc) []

/-- `EntryPointFinder.find_entries`. -/
def find_entries (df : Df) (indicators : TechnicalIndicators) (signal : Signal)
    (current_price : ℚ) : List EntryPoint :=
  let close := df.close.getLastD 0
  let entries :=
    if signal.type = SignalType.strong_buy.value ∨ signal.type = SignalType.buy.value then
      find_buy_entries close current_price indicators df signal
    else if signal.type = SignalType.strong_sell.value ∨ signal.type = SignalType.sell.value then
      find_sell_entries close current_price indicators df signal
    else
      -- NEUTRAL: both sides, each strength set to max(30, int(strength * 0.5))
      let buy_entries := find_buy_entries close current_price indicators df signal
      let sell_entries := find_sell_entries close current_price indicators df signal
      (buy_entries ++ sell_entries).map
        (fun ep => { ep with strength := max 30 (py_int ((ep.strength : ℚ) * 0.5)) })
  (sort_entries entries).take 3

/-! ### `DataFeed` — the per-instrument history store

The HTTP layer is external: `fetch_binance_klines` takes the already-parsed
candle list of the API response as an argument, and models the effect of the
`try` body on the store.  A Python `KeyError` escaping `get_ohlcv_array` is
`none`; inside `_fetch_binance_klines` the blanket `except` catches it, which
is why the result is the unchanged feed there. -/

/-- `DataFeed.symbols`, the fixed instrument set. -/
def symbols : List String := ["BTCUSDT", "ETHUSDT", "BNBUSDT"]

/-- The mutable state of `DataFeed`: the `ohlcv_history` dict, as an
association list over the fixed keys. -/
structure DataFeed where
  ohlcv_history : List (String × List OHLCV)
deriving DecidableEq, Inhabited

/-- `DataFeed.__init__`: one empty buffer per symbol. -/
def DataFeed.init : DataFeed :=
  { ohlcv_history := symbols.map (fun s => (s, [])) }

/-- Dict access `self.ohlcv_history[symbol]` (`none` = `KeyError`). -/
def hist_lookup (feed : DataFeed) (symbol : String) : Option (List OHLCV) :=
  feed.ohlcv_history.lookup symbol

/-- Writing buffer `v` at `symbol` (the key exists when this is reached). -/
def hist_update (l : List (String × List OHLCV)) (symbol : String) (v : List OHLCV) :
    List (String × List OHLCV) :=
  l.map (fun p => if p.1 = symbol then (p.1, v) else p)

/-- `DataFeed._fetch_binance_klines` on a successful HTTP response `data`:
clear the symbol's deque and append every parsed candle (`maxlen=500` keeps
the most recent 500).  The unknown-key `KeyError` from the dict access is
swallowed by the method's blanket `except`, leaving the feed unchanged. -/
def fetch_binance_klines (feed : DataFeed) (symbol : String) (data : List OHLCV) : DataFeed :=
  match hist_lookup feed symbol with
  | none => feed
  | some _ =>
      { ohlcv_history := hist_update feed.ohlcv_history symbol (data.drop (data.length - 500)) }

/-- The frame built by `DataFeed.get_ohlcv_array` from a buffer (timestamp
column omitted). -/
def df_of_history (h : List OHLCV) : Df :=
  { open_ := h.map (fun c => c.open_), high := h.map (fun c => c.high),
    low := h.map (fun c => c.low), close := h.map (fun c => c.close),
    volume := h.map (fun c => c.volume) }

/-- `DataFeed.get_ohlcv_array`: the dict access is unguarded, so an unknown
symbol raises `KeyError` (= `none`); an empty buffer yields an empty frame. -/
def get_ohlcv_array (feed : DataFeed) (symbol : String) : Option Df :=
  match hist_lookup feed symbol with
  | none => none
  | some h => some (df_of_history h)

/-! ### `TechnicalAnalyzer` — the indicator computer

TA-Lib is the external indicator library; a `TALib` record carries one opaque
function per library call made by `TechnicalAnalyzer.calculate`, each
returning the last element of the array the call produces. -/

/-- The TA-Lib collaborator functions used by `TechnicalAnalyzer.calculate`.
`macd` is `(macd, macd_signal, macd_hist)` at periods 12/26/9; `bbands` is
`(upper, middle, lower)` at period 20, 2 standard deviations; `atr`, `adx`,
`plus_di`, `minus_di` take `(high, low, close)` at period 14. -/
structure TALib where
  ema : ℕ → List ℚ → ℚ
  rsi : ℕ → List ℚ → ℚ
  macd : List ℚ → ℚ × ℚ × ℚ
  bbands : List ℚ → ℚ × ℚ × ℚ
  atr : List ℚ → List ℚ → List ℚ → ℚ
  adx : List ℚ → List ℚ → List ℚ → ℚ
  plus_di : List ℚ → List ℚ → List ℚ → ℚ
  minus_di : List ℚ → List ℚ → List ℚ → ℚ
  sma : ℕ → List ℚ → ℚ
  obv : List ℚ → List ℚ → ℚ

/-- The full indicator record `self.last_indicators` stored by
`TechnicalAnalyzer.calculate` (the method's return value is the
`TechnicalIndicators` subset of these fields). -/
structure LastIndicators where
  ema_20 : ℚ
  ema_50 : ℚ
  ema_100 : ℚ
  ema_200 : ℚ
  rsi : ℚ
  rsi_7 : ℚ
  rsi_21 : ℚ
  macd : ℚ
  macd_signal : ℚ
  macd_hist : ℚ
  bb_upper : ℚ
  bb_middle : ℚ
  bb_lower : ℚ
  atr : ℚ
  adx : ℚ
  plus_di : ℚ
  minus_di : ℚ
  volume_sma : ℚ
  obv : ℚ
  vwap : ℚ
  close : ℚ
  high : ℚ
  low : ℚ
deriving DecidableEq, Inhabited

/-- `TechnicalAnalyzer.calculate` (`len(df)` is the row count, taken on the
close column).  Returns `none` (`NotEnoughData`) below 50 candles. -/
def calculate (lib : TALib) (df : Df) : Option LastIndicators :=
  if df.close.length < 50 then none
  else
    let close := df.close
    let high := df.high
    let low := df.low
    let volume := df.volume
    let ema_20 := lib.ema 20 close
    let ema_50 := lib.ema 50 close
    let ema_100 := if close.length ≥ 100 then lib.ema 100 close else ema_50
    let ema_200 := if close.length ≥ 200 then lib.ema 200 close else ema_50
    let rsi := lib.rsi 14 close
    let rsi_7 := lib.rsi 7 close
    let rsi_21 := lib.rsi 21 close
    let macd3 := lib.macd close
    let bb3 := lib.bbands close
    let atr := lib.atr high low close
    let adx := lib.adx high low close
    let plus_di := if close.length ≥ 14 then lib.plus_di high low close else 0
    let minus_di := if close.length ≥ 14 then lib.minus_di high low close else 0
    let volume_sma := lib.sma 20 volume
    let obv := if close.length > 1 then lib.obv close volume else 0
    let typical_price := (List.zipWith (· + ·) (List.zipWith (· + ·) high low) close).map
      (fun x => x / 3)
    let vwap :=
      if volume.sum > 0 then (List.zipWith (· * ·) typical_price volume).sum / volume.sum
      else close.getLastD 0
    some
      { ema_20 := ema_20, ema_50 := ema_50, ema_100 := ema_100, ema_200 := ema_200,
        rsi := rsi, rsi_7 := rsi_7, rsi_21 := rsi_21,
        macd := macd3.1, macd_signal := macd3.2.1, macd_hist := macd3.2.2,
        bb_upper := bb3.1, bb_middle := bb3.2.1, bb_lower := bb3.2.2,
        atr := atr, adx := adx, plus_di := plus_di, minus_di := minus_di,
        volume_sma := volume_sma, obv := obv, vwap := vwap,
        close := close.getLastD 0, high := high.getLastD 0, low := low.getLastD 0 }

/-- The `TechnicalIndicators` value `TechnicalAnalyzer.calculate` returns,
as the projection of the stored record. -/
def to_technical (r : LastIndicators) : TechnicalIndicators :=
  { ema_20 := r.ema_20, ema_50 := r.ema_50, rsi := r.rsi, macd := r.macd,
    macd_signal := r.macd_signal, bb_upper := r.bb_upper, bb_middle := r.bb_middle,
    bb_lower := r.bb_lower, atr := r.atr, adx := r.adx, volume_sma := r.volume_sma,
    vwap := r.vwap }

/-! ### Definitions taken from the specification's words

These two definitions do NOT embed the source; they render the disputed
claims' wording, to be compared against the embedded code. -/

/-- Claim C3's reading of `_calculate_win_rate`: identical to the code except
that the risk/reward of Factor 2 is "computed for that candidate's side"
(`side` is the candidate's order side, `entry_tier` its quality tier). -/
def win_rate_claim_formula (side entry_tier : String) (entry_price tp_price sl_price : ℚ)
    (indicators : TechnicalIndicators) (df : Df) (signal : Signal) : ℤ :=
  let base_rate : ℚ := 50
  let base_rate := base_rate + ((signal.confidence : ℚ) - 50) * 0.15
  let risk := if side = "BUY" then entry_price - sl_price else sl_price - entry_price
  let reward := if side = "BUY" then tp_price - entry_price else entry_price - tp_price
  let base_rate :=
    if risk > 0 then
      let rrr := reward / risk
      if rrr > 2.5 then base_rate + 12
      else if rrr > 2.0 then base_rate + 10
      else if rrr > 1.5 then base_rate + 8
      else if rrr > 1.0 then base_rate + 5
      else base_rate
    else base_rate
  let base_rate :=
    if indicators.adx > 30 then base_rate + 8
    else if indicators.adx < 20 then base_rate - 5
    else base_rate
  let base_rate :=
    if df.volume.length > 0 then
      let current_vol := df.volume.getLastD 0
      let avg_vol := (tail20 df.volume).sum / ((tail20 df.volume).length : ℚ)
      if current_vol > avg_vol * 1.5 then base_rate + 8 else base_rate
    else base_rate
  let base_rate :=
    if entry_tier = "primary" then base_rate + 5
    else if entry_tier = "aggressive" then base_rate - 3
    else base_rate
  let base_rate :=
    if indicators.rsi < 30 ∨ indicators.rsi > 70 then base_rate + 10
    else if indicators.rsi < 40 ∨ indicators.rsi > 60 then base_rate + 5
    else base_rate
  py_int (min 95 (max 20 base_rate))

/-- Claim C4's decision tree, as worded: the moderate band is the index
interval `(20, 35]`. -/
def regime_claimed (ind : TechnicalIndicators) (trend_sc : ℤ) : String :=
  if ind.adx > 35 ∧ trend_sc > 30 then MarketRegime.trending_up.value
  else if ind.adx > 35 ∧ trend_sc < -30 then MarketRegime.trending_down.value
  else if 20 < ind.adx ∧ ind.adx ≤ 35 ∧ |trend_sc| > 20 then MarketRegime.breakout.value
  else if ind.adx < 20 then MarketRegime.ranging.value
  else if |ind.rsi - 50| > 35 then MarketRegime.reversal.value
  else MarketRegime.breakout.value

/-- Claim C4 amended: the same priority list, with the moderate band at the
index interval `(25, 35]` — the interval the code actually tests. -/
def regime_amended (ind : TechnicalIndicators) (trend_sc : ℤ) : String :=
  if ind.adx > 35 ∧ trend_sc > 30 then MarketRegime.trending_up.value
  else if ind.adx > 35 ∧ trend_sc < -30 then MarketRegime.trending_down.value
  else if 25 < ind.adx ∧ ind.adx ≤ 35 ∧ |trend_sc| > 20 then MarketRegime.breakout.value
  else if ind.adx < 20 then MarketRegime.ranging.value
  else if |ind.rsi - 50| > 35 then MarketRegime.reversal.value
  else MarketRegime.breakout.value

/-! ### Concrete evaluation fixtures -/

/-- Indicators whose factor scores are trend 10, momentum 45, volatility 5,
volume 10, structure 15 at the frame `dfC2` — weighted sum 18.75. -/
def indC2 : TechnicalIndicators :=
  { ema_20 := 10, ema_50 := 10, rsi := 55, macd := 1, macd_signal := 0,
    bb_upper := 22, bb_middle := 11, bb_lower := 0, atr := 1, adx := 20,
    volume_sma := 10, vwap := 10.5 }

/-- Frame with `close.iloc[-1] = 11`, `close.iloc[-2] = 10`,
`volume.iloc[-1] = 12`. -/
def dfC2 : Df :=
  { open_ := [0, 0], high := [0, 0], low := [0, 0], close := [10, 11], volume := [5, 12] }

/-- Neutral indicators for the win-rate evaluation: `adx = 25` and `rsi = 50`
contribute nothing. -/
def indC3 : TechnicalIndicators :=
  { ema_20 := 0, ema_50 := 0, rsi := 50, macd := 0, macd_signal := 0,
    bb_upper := 0, bb_middle := 0, bb_lower := 0, atr := 0, adx := 25,
    volume_sma := 0, vwap := 0 }

/-- Frame with flat volume (no volume-confirmation bonus). -/
def dfC3 : Df :=
  { open_ := [0, 0], high := [0, 0], low := [0, 0], close := [0, 0], volume := [10, 10] }

/-- Buy signal at base confidence 50 (no confidence term). -/
def sigC3 : Signal := { type := "buy", score := 30, confidence := 50, label := "BUY" }

/-- Indicators with `adx = 22` (in the claimed-but-not-coded moderate band)
and an extreme oscillator `rsi = 88`. -/
def indC4 : TechnicalIndicators :=
  { ema_20 := 0, ema_50 := 0, rsi := 88, macd := 0, macd_signal := 0,
    bb_upper := 0, bb_middle := 0, bb_lower := 0, atr := 0, adx := 22,
    volume_sma := 0, vwap := 0 }

/-- Indicators with `atr = 2`, giving ATR-percent 2 ("normal" tier) at a
close of 100. -/
def indC7 : TechnicalIndicators :=
  { ema_20 := 0, ema_50 := 0, rsi := 0, macd := 0, macd_signal := 0,
    bb_upper := 0, bb_middle := 0, bb_lower := 0, atr := 2, adx := 0,
    volume_sma := 0, vwap := 0 }

/-- One-row frame with close 100. -/
def dfC7 : Df :=
  { open_ := [100], high := [100], low := [100], close := [100], volume := [10] }

/-- Signal with confidence 53: in `[0, 100]`, below the 60 halving threshold,
and `0.8 × 0.53 × 0.5 = 0.212` is not representable at two decimals. -/
def sigC7 : Signal := { type := "neutral", score := 0, confidence := 53, label := "NEUTRAL" }

/-- Signal with confidence 80 for the witness instantiation. -/
def sigW7 : Signal := { type := "neutral", score := 0, confidence := 80, label := "NEUTRAL" }

/-- Indicators for the entry-search witness instantiation. -/
def indW6 : TechnicalIndicators :=
  { ema_20 := 100, ema_50 := 100, rsi := 50, macd := 0, macd_signal := 0,
    bb_upper := 110, bb_middle := 100, bb_lower := 90, atr := 10, adx := 25,
    volume_sma := 10, vwap := 100 }

/-- One-row frame for the entry-search witness instantiation. -/
def dfW6 : Df :=
  { open_ := [100], high := [100], low := [100], close := [100], volume := [10] }

/-- Buy signal for the entry-search witness instantiation. -/
def sigW6 : Signal := { type := "buy", score := 30, confidence := 80, label := "BUY" }

/-- Indicators in a plain downtrend (`ema_20 < ema_50`) with weak `adx`. -/
def indDownWeak : TechnicalIndicators :=
  { ema_20 := 1, ema_50 := 2, rsi := 0, macd := 0, macd_signal := 0,
    bb_upper := 0, bb_middle := 0, bb_lower := 0, atr := 0, adx := 20,
    volume_sma := 0, vwap := 0 }

/-- Indicators in a downtrend with `adx > 30` (ADX-confirmed). -/
def indDownStrong : TechnicalIndicators :=
  { ema_20 := 1, ema_50 := 2, rsi := 0, macd := 0, macd_signal := 0,
    bb_upper := 0, bb_middle := 0, bb_lower := 0, atr := 0, adx := 31,
    volume_sma := 0, vwap := 0 }

/-! ### Helper lemmas -/

theorem py_int_intCast (n : ℤ) : py_int (n : ℚ) = n := by
  unfold py_int
  split_ifs <;> simp

theorem py_int_of_nonneg {q : ℚ} (h : 0 ≤ q) : py_int q = Int.floor q := by
  unfold py_int
  rw [if_neg (not_lt.mpr h)]

theorem py_int_clamp_20_95 (q : ℚ) :
    20 ≤ py_int (min 95 (max 20 q)) ∧ py_int (min 95 (max 20 q)) ≤ 95 := by
  have h20 : (20 : ℚ) ≤ min 95 (max 20 q) := le_min (by norm_num) (le_max_left _ _)
  have h95 : min 95 (max 20 q) ≤ 95 := min_le_left _ _
  have h0 : (0 : ℚ) ≤ min 95 (max 20 q) := le_trans (by norm_num) h20
  rw [py_int_of_nonneg h0]
  constructor
  · exact Int.le_floor.mpr (by exact_mod_cast h20)
  · have h := (Int.floor_le (min 95 (max 20 (q : ℚ)))).trans h95
    exact_mod_cast h

theorem calculate_win_rate_bounds (entry_type : String) (entry_price tp_price sl_price : ℚ)
    (indicators : TechnicalIndicators) (df : Df) (signal : Signal) :
    20 ≤ calculate_win_rate entry_type entry_price tp_price sl_price indicators df signal ∧
    calculate_win_rate entry_type entry_price tp_price sl_price indicators df signal ≤ 95 := by
  simp only [calculate_win_rate]
  exact py_int_clamp_20_95 _

theorem floor_le_round_half_even (q : ℚ) : Int.floor q ≤ round_half_even q := by
  unfold round_half_even
  split_ifs <;> omega

theorem round_half_even_le_ceil (q : ℚ) : round_half_even q ≤ Int.ceil q := by
  have hceil : Int.floor q ≤ Int.ceil q := Int.floor_le_ceil q
  have hup : ¬ Int.fract q < 1/2 → Int.floor q + 1 ≤ Int.ceil q := by
    intro h
    have h0 : (0 : ℚ) < Int.fract q := by linarith [not_lt.mp h]
    have hq : (Int.floor q : ℚ) < q := by
      have := Int.floor_add_fract q
      linarith
    have := Int.lt_ceil.mpr hq
    omega
  unfold round_half_even
  split_ifs with h1 h2 h3
  · exact hceil
  · exact hup h1
  · exact hceil
  · exact hup h1

theorem round2_bounds {q : ℚ} (h0 : 0 ≤ q) (h1 : q ≤ 1) :
    0 ≤ round2 q ∧ round2 q ≤ 1 := by
  have hlow : (0 : ℤ) ≤ round_half_even (q * 100) := by
    have hf : (0 : ℤ) ≤ Int.floor (q * 100) := Int.le_floor.mpr (by push_cast; nlinarith)
    have := floor_le_round_half_even (q * 100)
    omega
  have hhigh : round_half_even (q * 100) ≤ 100 := by
    have hc : Int.ceil (q * 100) ≤ 100 := Int.ceil_le.mpr (by push_cast; nlinarith)
    have := round_half_even_le_ceil (q * 100)
    omega
  unfold round2
  constructor
  · exact div_nonneg (by exact_mod_cast hlow) (by norm_num)
  · rw [div_le_one (by norm_num)]
    exact_mod_cast hhigh

theorem key_lt_asymm {a b : ℤ × ℤ} (h : key_lt a b) : ¬ key_lt b a := by
  obtain ⟨a1, a2⟩ := a
  obtain ⟨b1, b2⟩ := b
  simp only [key_lt] at *
  omega

theorem key_lt_trans {a b c : ℤ × ℤ} (hab : key_lt a b) (hbc : key_lt b c) : key_lt a c := by
  obtain ⟨a1, a2⟩ := a
  obtain ⟨b1, b2⟩ := b
  obtain ⟨c1, c2⟩ := c
  simp only [key_lt] at *
  omega

theorem mem_insort (x a : EntryPoint) :
    ∀ (l : List EntryPoint), (x ∈ insort a l ↔ x = a ∨ x ∈ l)
  | [] => by simp [insort]
  | b :: t => by
    simp only [insort]
    split_ifs with h
    · simp [List.mem_cons]
    · rw [List.mem_cons, mem_insort x a t, List.mem_cons]
      tauto

theorem pairwise_insort (a : EntryPoint) :
    ∀ (l : List EntryPoint),
      l.Pairwise (fun x y => ¬ key_lt (entry_key x) (entry_key y)) →
      (insort a l).Pairwise (fun x y => ¬ key_lt (entry_key x) (entry_key y))
  | [], _ => by simp [insort]
  | b :: t, h => by
    rcases List.pairwise_cons.mp h with ⟨hb, ht⟩
    simp only [insort]
    split_ifs with hlt
    · refine List.pairwise_cons.mpr ⟨?_, h⟩
      intro y hy
      rcases List.mem_cons.mp hy with rfl | hyt
      · exact key_lt_asymm hlt
      · exact fun hc => hb y hyt (key_lt_trans hlt hc)
    · refine List.pairwise_cons.mpr ⟨?_, pairwise_insort a t ht⟩
      intro y hy
      rcases (mem_insort y a t).mp hy with rfl | hyt
      · exact hlt
      · exact hb y hyt

theorem pairwise_sort_entries (l : List EntryPoint) :
    (sort_entries l).Pairwise (fun x y => ¬ key_lt (entry_key x) (entry_key y)) := by
  unfold sort_entries
  suffices h : ∀ (acc : List EntryPoint),
      acc.Pairwise (fun x y => ¬ key_lt (entry_key x) (entry_key y)) →
      (l.foldl (fun acc x => insort x acc) acc).Pairwise
        (fun x y => ¬ key_lt (entry_key x) (entry_key y)) by
    exact h [] (by simp)
  induction l with
  | nil => exact fun acc hacc => hacc
  | cons x t ih => exact fun acc hacc => ih _ (pairwise_insort x acc hacc)

theorem mem_sort_entries (x : EntryPoint) (l : List EntryPoint) :
    x ∈ sort_entries l ↔ x ∈ l := by
  unfold sort_entries
  suffices h : ∀ (acc : List EntryPoint),
      (x ∈ l.foldl (fun acc y => insort y acc) acc ↔ x ∈ acc ∨ x ∈ l) by
    have := h []
    simpa using this
  induction l with
  | nil => intro acc; simp
  | cons y t ih =>
    intro acc
    simp only [List.foldl_cons]
    rw [ih (insort y acc), mem_insort x y acc, List.mem_cons]
    tauto

theorem signal_type_of_value_iff (s : ℤ) :
    ((signal_type_of s).value = "strong_buy" ↔ s > 65) ∧
    ((signal_type_of s).value = "buy" ↔ 25 < s ∧ s ≤ 65) ∧
    ((signal_type_of s).value = "neutral" ↔ -25 < s ∧ s ≤ 25) ∧
    ((signal_type_of s).value = "sell" ↔ -65 < s ∧ s ≤ -25) ∧
    ((signal_type_of s).value = "strong_sell" ↔ s ≤ -65) := by
  unfold signal_type_of
  split_ifs with h1 h2 h3 h4 <;>
    refine ⟨?_, ?_, ?_, ?_, ?_⟩ <;> constructor <;> intro h <;>
    first
      | rfl
      | omega
      | exact absurd h (by decide)

theorem py_int_conf (m : ℕ) : py_int (50 + ((m : ℚ) / 5) * 50) = 50 + 10 * m := by
  have h : (50 + ((m : ℚ) / 5) * 50) = ((50 + 10 * m : ℤ) : ℚ) := by
    push_cast
    ring
  rw [h, py_int_intCast]

theorem final_score_of_bounds (ind : TechnicalIndicators) (close prev_close current_volume : ℚ) :
    -100 ≤ final_score_of ind close prev_close current_volume ∧
    final_score_of ind close prev_close current_volume ≤ 100 := by
  unfold final_score_of
  exact ⟨le_max_left _ _, max_le (by norm_num) (min_le_left _ _)⟩

theorem confidence_of_spec (fs : ℤ) (factors : List Factor) (h5 : factors.length = 5) :
    ((confidence_of fs factors : ℤ) : ℚ)
        = (if |fs| > 60
           then min 100 (50 + 50 * (((max (factors.countP fun f => decide (f.impact > 0))
                  (factors.countP fun f => decide (f.impact < 0)) : ℕ) : ℚ) / 5) + 15)
           else 50 + 50 * (((max (factors.countP fun f => decide (f.impact > 0))
                  (factors.countP fun f => decide (f.impact < 0)) : ℕ) : ℚ) / 5)) ∧
    0 ≤ confidence_of fs factors ∧ confidence_of fs factors ≤ 100 := by
  have hm : max (factors.countP fun f => decide (f.impact > 0))
      (factors.countP fun f => decide (f.impact < 0)) ≤ 5 := by
    have h1 := List.countP_le_length (l := factors) (p := fun f => decide (f.impact > 0))
    have h2 := List.countP_le_length (l := factors) (p := fun f => decide (f.impact < 0))
    rw [h5] at h1 h2
    omega
  set m := max (factors.countP fun f => decide (f.impact > 0))
      (factors.countP fun f => decide (f.impact < 0)) with hm_def
  have hbase : py_int (50 + (((m : ℕ) : ℚ) / (factors.length : ℚ)) * 50) = 50 + 10 * m := by
    rw [h5]
    exact_mod_cast py_int_conf m
  have hconf : confidence_of fs factors
      = (if |fs| > 60 then min 100 (50 + 10 * (m : ℤ) + 15) else 50 + 10 * (m : ℤ)) := by
    simp only [confidence_of]
    rw [← hm_def, hbase]
  rw [hconf]
  refine ⟨?_, ?_, ?_⟩
  · split_ifs with h
    · push_cast [Int.cast_min]
      congr 1
      ring
    · push_cast
      ring
  · split_ifs <;> omega
  · split_ifs <;> omega

theorem find_buy_entries_win_rate (close current_price : ℚ) (indicators : TechnicalIndicators)
    (df : Df) (signal : Signal) :
    ∀ ep ∈ find_buy_entries close current_price indicators df signal,
      20 ≤ ep.win_rate ∧ ep.win_rate ≤ 95 := by
  intro ep hep
  simp only [find_buy_entries, List.mem_cons, List.not_mem_nil, or_false] at hep
  rcases hep with rfl | rfl | rfl | rfl <;>
    exact calculate_win_rate_bounds _ _ _ _ _ _ _

theorem find_sell_entries_win_rate (close current_price : ℚ) (indicators : TechnicalIndicators)
    (df : Df) (signal : Signal) :
    ∀ ep ∈ find_sell_entries close current_price indicators df signal,
      20 ≤ ep.win_rate ∧ ep.win_rate ≤ 95 := by
  intro ep hep
  simp only [find_sell_entries, List.mem_cons, List.not_mem_nil, or_false] at hep
  rcases hep with rfl | rfl | rfl | rfl <;>
    exact calculate_win_rate_bounds _ _ _ _ _ _ _

/-! ### Claim theorems -/

/-- Claim C1: the signal class assigned by `SignalEngine.analyze` follows the
exact open/closed boundaries on the final score: `(65, ∞)` strong-buy,
`(25, 65]` buy, `(-25, 25]` neutral, `(-65, -25]` sell, and everything else
(`≤ -65`) strong-sell. -/
theorem analyze_signal_class_boundaries (df : Df) (ind : TechnicalIndicators) :
    ((analyze df ind).1.type = "strong_buy" ↔ (analyze df ind).1.score > 65) ∧
    ((analyze df ind).1.type = "buy" ↔
      25 < (analyze df ind).1.score ∧ (analyze df ind).1.score ≤ 65) ∧
    ((analyze df ind).1.type = "neutral" ↔
      -25 < (analyze df ind).1.score ∧ (analyze df ind).1.score ≤ 25) ∧
    ((analyze df ind).1.type = "sell" ↔
      -65 < (analyze df ind).1.score ∧ (analyze df ind).1.score ≤ -25) ∧
    ((analyze df ind).1.type = "strong_sell" ↔ (analyze df ind).1.score ≤ -65) :=
  signal_type_of_value_iff
    (final_score_of ind (df.close.getLastD 0) (df.close.dropLast.getLastD 0)
      (df.volume.getLastD 0))

/-- Claim C2, counterexample: at `dfC2`/`indC2` the weighted sum is 18.75;
the code truncates (`int`) to 18 while the claimed
`round(clamp(Σ weight × score, -100, 100))` gives 19. -/
theorem analyze_score_not_rounded :
    (analyze dfC2 indC2).1.score = 18 ∧
    round (max (-100 : ℚ) (min 100
      (weight_trend * (trend_score indC2 11 : ℚ)
        + weight_momentum * (momentum_score indC2 : ℚ)
        + weight_volatility * (volatility_score indC2 11 : ℚ)
        + weight_volume * (volume_score indC2 11 10 12 : ℚ)
        + weight_structure * (structure_score indC2 11 : ℚ)))) = 19 := by
  constructor
  · norm_num [analyze, dfC2, indC2, final_score_of, trend_score, momentum_score,
      volatility_score, volume_score, structure_score, weight_trend, weight_momentum,
      weight_volatility, weight_volume, weight_structure, py_int, List.getLastD,
      List.dropLast]
  · rw [round_eq]
    norm_num [indC2, trend_score, momentum_score, volatility_score, volume_score,
      structure_score, weight_trend, weight_momentum, weight_volatility, weight_volume,
      weight_structure]

/-- Claim C2 amended: the final score equals the weighted factor sum
truncated toward zero (Python `int`, not `round`) and clamped to
`[-100, 100]`; it is always an integer in `[-100, 100]`, and the weight table
sums to 1. -/
theorem analyze_score_truncated_clamped (df : Df) (ind : TechnicalIndicators) :
    (analyze df ind).1.score
        = max (-100) (min 100 (py_int
            ((trend_score ind (df.close.getLastD 0) : ℚ) * weight_trend
              + (momentum_score ind : ℚ) * weight_momentum
              + (volatility_score ind (df.close.getLastD 0) : ℚ) * weight_volatility
              + (volume_score ind (df.close.getLastD 0) (df.close.dropLast.getLastD 0)
                  (df.volume.getLastD 0) : ℚ) * weight_volume
              + (structure_score ind (df.close.getLastD 0) : ℚ) * weight_structure))) ∧
    -100 ≤ (analyze df ind).1.score ∧ (analyze df ind).1.score ≤ 100 ∧
    weight_trend + weight_momentum + weight_volatility + weight_volume + weight_structure = 1 := by
  refine ⟨rfl, ?_, ?_, by norm_num [weight_trend, weight_momentum, weight_volatility,
    weight_volume, weight_structure]⟩
  · exact (final_score_of_bounds ind _ _ _).1
  · exact (final_score_of_bounds ind _ _ _).2

/-- Claim C5: the confidence produced by `SignalEngine.analyze` equals
`50 + 50 × (fraction of the five factors agreeing in sign with the
majority)`, with a further `+15` capped at 100 added exactly when
`|score| > 60`, and is always in `[0, 100]`. -/
theorem analyze_confidence_formula (df : Df) (ind : TechnicalIndicators) :
    (((analyze df ind).1.confidence : ℤ) : ℚ)
        = (if |(analyze df ind).1.score| > 60
           then min 100 (50 + 50 * (((max ((analyze df ind).2.1.countP fun f => decide (f.impact > 0))
                  ((analyze df ind).2.1.countP fun f => decide (f.impact < 0)) : ℕ) : ℚ) / 5) + 15)
           else 50 + 50 * (((max ((analyze df ind).2.1.countP fun f => decide (f.impact > 0))
                  ((analyze df ind).2.1.countP fun f => decide (f.impact < 0)) : ℕ) : ℚ) / 5)) ∧
    0 ≤ (analyze df ind).1.confidence ∧ (analyze df ind).1.confidence ≤ 100 :=
  confidence_of_spec
    (final_score_of ind (df.close.getLastD 0) (df.close.dropLast.getLastD 0)
      (df.volume.getLastD 0))
    (build_factors ind (df.close.getLastD 0) (df.close.dropLast.getLastD 0)
      (df.volume.getLastD 0))
    rfl

/-- Claim C10: the trend dimension of `SignalEngine.analyze` is asymmetric —
because the strong-uptrend guard requires `ema_50 > ema_50`, its positive
values are only +10 or +20 (never above +20), while the downside reaches -40
and -60. -/
theorem trend_score_asymmetric :
    (∀ (ind : TechnicalIndicators) (close : ℚ),
        trend_score ind close ≤ 20 ∧
        (trend_score ind close = 10 ∨ trend_score ind close = 20 ∨
         trend_score ind close = -10 ∨ trend_score ind close = -20 ∨
         trend_score ind close = -40 ∨ trend_score ind close = -60)) ∧
    trend_score indDownWeak 0 = -40 ∧ trend_score indDownStrong 0 = -60 := by
  refine ⟨fun ind close => ?_, by norm_num [trend_score, indDownWeak],
    by norm_num [trend_score, indDownStrong]⟩
  unfold trend_score
  split_ifs with h1 h2 h3 h4 h5 h6 h7 <;>
    first
      | exact absurd h1.2 (lt_irrefl _)
      | omega

/-- Claim C4, counterexample: at `adx = 22`, trend factor 25 and `rsi = 88`
the code returns "reversal" (its moderate band starts above 25), while the
claimed tree with moderate band `(20, 35]` returns "breakout". -/
theorem detect_regime_moderate_band_counterexample :
    detect_regime indC4 25 = "reversal" ∧ regime_claimed indC4 25 = "breakout" := by
  constructor <;> norm_num [detect_regime, regime_claimed, indC4, MarketRegime.value]

/-- Claim C4 amended: `SignalEngine._detect_regime` equals the claimed
priority tree with the moderate trending/breakout band at directional-index
interval `(25, 35]` (the code tests `adx > 25`, not `adx > 20`). -/
theorem detect_regime_decision_tree (ind : TechnicalIndicators) (t : ℤ) :
    detect_regime ind t = regime_amended ind t := by
  rcases lt_or_le (35 : ℚ) ind.adx with hA35 | hA35
  · have h1 : ind.adx > 35 := hA35
    have h2 : ¬ ind.adx ≤ 35 := not_le.mpr hA35
    have h3 : ¬ ind.adx < 20 := by linarith
    by_cases hT30 : t > 30
    · simp [detect_regime, regime_amended, h1, h2, h3, hT30]
    · by_cases hTm : t < -30
      · simp [detect_regime, regime_amended, h1, h2, h3, hT30, hTm]
      · simp [detect_regime, regime_amended, h1, h2, h3, hT30, hTm]
  · rcases lt_or_le (25 : ℚ) ind.adx with hA25 | hA25
    · have h1 : ¬ ind.adx > 35 := not_lt.mpr hA35
      have h3 : ¬ ind.adx < 20 := by linarith
      simp [detect_regime, regime_amended, h1, hA35, h3, hA25]
    · rcases lt_or_le ind.adx (20 : ℚ) with hA20 | hA20
      · have h1 : ¬ ind.adx > 35 := by linarith
        have h2 : ¬ ind.adx > 25 := by linarith
        simp [detect_regime, regime_amended, h1, h2, hA20]
      · have h1 : ¬ ind.adx > 35 := by linarith
        have h2 : ¬ ind.adx > 25 := not_lt.mpr hA25
        have h3 : ¬ ind.adx < 20 := not_lt.mpr hA20
        simp [detect_regime, regime_amended, h1, h2, h3]

/-- Claim C3: evaluation of `_calculate_win_rate` at a buy-shaped candidate
(`sl < entry < tp`, risk/reward ratio 3.0, everything else neutral, tier
"aggressive").  The code compares its tier argument with "BUY", which never
matches, so it computes `risk = sl - entry < 0` and skips the RRR bonus,
yielding 47; the claimed side-aware formula yields 50 + 12 - 3 = 59. -/
theorem win_rate_buy_side_rrr_bonus_dead :
    calculate_win_rate "aggressive" 100 136 88 indC3 dfC3 sigC3 = 47 ∧
    win_rate_claim_formula "BUY" "aggressive" 100 136 88 indC3 dfC3 sigC3 = 59 := by
  constructor <;>
    simp [calculate_win_rate, win_rate_claim_formula, indC3, dfC3, sigC3, tail20,
      py_int, List.getLastD] <;>
    norm_num

/-- Claim C6: `EntryPointFinder.find_entries` returns at most 3 candidates,
sorted descending by the pair `(win_rate, strength)` (no later element's key
is lexicographically above an earlier one's), and every returned candidate's
win rate lies in `[20, 95]`. -/
theorem find_entries_top3_sorted_bounded (df : Df) (indicators : TechnicalIndicators)
    (signal : Signal) (current_price : ℚ) :
    (find_entries df indicators signal current_price).length ≤ 3 ∧
    (find_entries df indicators signal current_price).Pairwise
      (fun x y => ¬ key_lt (entry_key x) (entry_key y)) ∧
    ((find_entries df indicators signal current_price).all
      (fun ep => decide (20 ≤ ep.win_rate ∧ ep.win_rate ≤ 95))) = true := by
  refine ⟨?_, ?_, ?_⟩
  · simp only [find_entries]
    exact List.length_take_le _ _
  · simp only [find_entries]
    exact List.Pairwise.sublist (List.take_sublist _ _) (pairwise_sort_entries _)
  · rw [List.all_eq_true]
    intro ep hep
    simp only [decide_eq_true_eq]
    simp only [find_entries] at hep
    have h1 := List.mem_of_mem_take hep
    rw [mem_sort_entries] at h1
    split_ifs at h1 with hb hs
    · exact find_buy_entries_win_rate _ _ _ _ _ ep h1
    · exact find_sell_entries_win_rate _ _ _ _ _ ep h1
    · rw [List.mem_map] at h1
      obtain ⟨x, hx, rfl⟩ := h1
      rw [List.mem_append] at hx
      rcases hx with hx | hx
      · simpa using find_buy_entries_win_rate _ _ _ _ _ x hx
      · simpa using find_sell_entries_win_rate _ _ _ _ _ x hx

theorem calculate_risk_size_bounds (df : Df) (ind : TechnicalIndicators) (signal : Signal)
    (h2 : 0 ≤ signal.confidence) (h3 : signal.confidence ≤ 100) :
    0 ≤ (calculate_risk df ind signal).recommended_position_size ∧
    (calculate_risk df ind signal).recommended_position_size ≤ 1 := by
  have hc0 : (0 : ℚ) ≤ (signal.confidence : ℚ) := by exact_mod_cast h2
  have hc1 : (signal.confidence : ℚ) ≤ 100 := by exact_mod_cast h3
  simp only [calculate_risk]
  refine round2_bounds ?_ ?_
  · split_ifs <;> linarith
  · split_ifs <;> linarith

/-- Claim C7, counterexample: the claim's premises hold at confidence 53 with
ATR-percent 2 ("normal" tier), yet the recommended size is not
`0.8 × 0.53 × 0.5 = 0.212` — the code stores `round(…, 2) = 0.21`. -/
theorem position_size_rounding_counterexample :
    0 ≤ (calculate_risk dfC7 indC7 sigC7).atr_percent ∧
    (0 : ℤ) ≤ sigC7.confidence ∧ sigC7.confidence ≤ 100 ∧
    (calculate_risk dfC7 indC7 sigC7).recommended_position_size
      ≠ 0.8 * ((53 : ℚ) / 100) * 0.5 := by
  refine ⟨by norm_num [calculate_risk, dfC7, indC7, List.getLastD],
    by norm_num [sigC7], by norm_num [sigC7], ?_⟩
  norm_num [calculate_risk, dfC7, indC7, sigC7, round2, round_half_even, Int.fract,
    List.getLastD]

/-- Claim C7 amended: the recommended position-size fraction equals the
volatility-tier base size times `confidence/100`, times 0.5 when
`confidence < 60`, ROUNDED to two decimal places (Python `round(…, 2)`), and
always lies in `[0, 1]`. -/
theorem position_size_formula_bounded (df : Df) (ind : TechnicalIndicators) (signal : Signal)
    (h1 : 0 ≤ (calculate_risk df ind signal).atr_percent)
    (h2 : 0 ≤ signal.confidence) (h3 : signal.confidence ≤ 100) :
    (calculate_risk df ind signal).recommended_position_size
        = round2 ((if (calculate_risk df ind signal).atr_percent < 1.0 then 1.0
                   else if (calculate_risk df ind signal).atr_percent < 2.5 then 0.8
                   else if (calculate_risk df ind signal).atr_percent < 4.0 then 0.5
                   else 0.25)
                  * ((signal.confidence : ℚ) / 100)
                  * (if signal.confidence < 60 then 0.5 else 1)) ∧
    0 ≤ (calculate_risk df ind signal).recommended_position_size ∧
    (calculate_risk df ind signal).recommended_position_size ≤ 1 := by
  refine ⟨?_, (calculate_risk_size_bounds df ind signal h2 h3).1,
    (calculate_risk_size_bounds df ind signal h2 h3).2⟩
  simp only [calculate_risk]
  congr 1
  split_ifs <;> ring

/-- Witness for the amended claim C7 at confidence 80 with ATR-percent 2. -/
theorem position_size_formula_bounded_witness :
    0 ≤ (calculate_risk dfC7 indC7 sigW7).recommended_position_size ∧
    (calculate_risk dfC7 indC7 sigW7).recommended_position_size ≤ 1 :=
  ⟨(position_size_formula_bounded dfC7 indC7 sigW7
      (by norm_num [calculate_risk, dfC7, indC7, List.getLastD])
      (by norm_num [sigW7]) (by norm_num [sigW7])).2.1,
   (position_size_formula_bounded dfC7 indC7 sigW7
      (by norm_num [calculate_risk, dfC7, indC7, List.getLastD])
      (by norm_num [sigW7]) (by norm_num [sigW7])).2.2⟩

/-- Claim C8, counterexample: the snapshot/read path is NOT a silent no-op on
an unknown instrument key — `get_ohlcv_array` performs an unguarded dict
access, so "DOGEUSDT" raises `KeyError` (embedded as `none`) instead of
returning a frame. -/
theorem get_ohlcv_array_unknown_symbol_raises :
    get_ohlcv_array DataFeed.init "DOGEUSDT" = none := rfl

/-- Claim C8 amended: on an unknown instrument key the refresh path
(`_fetch_binance_klines`) really is a silent no-op (its blanket `except`
swallows the `KeyError`), but the read path (`get_ohlcv_array`) raises. -/
theorem history_unknown_symbol_paths (feed : DataFeed) (symbol : String) (data : List OHLCV)
    (h : hist_lookup feed symbol = none) :
    fetch_binance_klines feed symbol data = feed ∧
    get_ohlcv_array feed symbol = none := by
  unfold fetch_binance_klines get_ohlcv_array
  rw [h]
  exact ⟨rfl, rfl⟩

/-- Witness for the amended claim C8 at the startup feed and key "XRPUSDT". -/
theorem history_unknown_symbol_paths_witness :
    fetch_binance_klines DataFeed.init "XRPUSDT" [] = DataFeed.init ∧
    get_ohlcv_array DataFeed.init "XRPUSDT" = none :=
  history_unknown_symbol_paths DataFeed.init "XRPUSDT" [] (by rfl)

/-- Claim C9: `TechnicalAnalyzer.calculate` returns the NotEnoughData outcome
(`none`) exactly when the snapshot has fewer than 50 candles; on at least 50
candles the 100- and 200-period trend averages fall back to the 50-period value
when the history is shorter than 100/200 candles, and the volume-weighted
average price is taken over the entire snapshot, falling back to the last
close when total volume is not positive. -/
theorem calculate_min_candles_and_fallbacks (lib : TALib) (df : Df) :
    (match calculate lib df with
     | none => df.close.length < 50
     | some r =>
         50 ≤ df.close.length ∧
         r.ema_100 = (if df.close.length ≥ 100 then lib.ema 100 df.close
                      else lib.ema 50 df.close) ∧
         r.ema_200 = (if df.close.length ≥ 200 then lib.ema 200 df.close
                      else lib.ema 50 df.close) ∧
         r.vwap = (if df.volume.sum > 0
                   then (List.zipWith (· * ·)
                       ((List.zipWith (· + ·) (List.zipWith (· + ·) df.high df.low)
                           df.close).map (fun x => x / 3)) df.volume).sum / df.volume.sum
                   else df.close.getLastD 0)) := by
  by_cases h : df.close.length < 50
  · simp [calculate, h]
  · simp [calculate, h]
    omega
